import Mathlib

/-!
Verification of the time-bucketed aggregation and caching core of the
sol_avax_bridge repository.

Conventions of the shallow embedding:
* JS `Date` instants and durations are milliseconds since the epoch, `ℤ`
  (UTC; `setMinutes(0); setSeconds(0); setMilliseconds(0)` is truncation
  modulo one hour of milliseconds).
* JS numbers carrying amounts and prices are `ℚ` (exact arithmetic).
* `Math.random()` draws are oracle parameters `ℕ → _` indexed by loop
  position, universally quantified in every theorem.
* `async` producers that can throw are `Except Unit _`; the module-level
  mutable cache of each route is explicit state passed through a pure
  step function per GET handler.
-/

namespace SolAvaxBridge

/-- Width of one aggregation bucket in milliseconds, the source's
`15 * 60 * 1000`. -/
def bucketWidthMs : ℤ := 15 * 60 * 1000

/-- Milliseconds in one hour. -/
def msPerHour : ℤ := 60 * 60 * 1000

/-- Embedding of `roundToNearestHour` from `src/app/api/utils/time.ts` and
`src/app/utils/time.ts`: it copies the date and zeroes minutes, seconds and
milliseconds, i.e. truncates the instant to the top of its hour. -/
def roundToNearestHour (t : ℤ) : ℤ := t - t % msPerHour

/-- A raw bridge transfer as consumed by `processTransfers`
(`src/app/api/bridge-data/route.ts`) and `fetchRealInflowData`
(`src/unnamed/part_001`): `timestamp` is seconds since the epoch (the code
multiplies by 1000), `fromChain` the source-chain tag, `amount` the parsed
numeric amount. -/
structure Transfer where
  timestamp : ℤ
  fromChain : String
  amount : ℚ
deriving DecidableEq

/-- The source's `intervalStart = intervalTime - 15 * 60 * 1000`: the older
endpoint of bucket `i`. -/
def bucketStart (now : ℤ) (i : ℕ) : ℤ := now - ((i : ℤ) + 1) * bucketWidthMs

/-- The source's `intervalTime = now - i * 15 * 60 * 1000`: the newer
endpoint of bucket `i` (bucket 0 is the most recent). -/
def bucketEnd (now : ℤ) (i : ℕ) : ℤ := now - (i : ℤ) * bucketWidthMs

/-- The range prefilter shared by `processTransfers` and
`fetchRealInflowData`: keeps transfers with
`new Date(t.timestamp * 1000) > rangeStart` where
`rangeStart = now - duration` (strict inequality in the source). -/
def relevantTransfers (transfers : List Transfer) (now dur : ℤ) : List Transfer :=
  transfers.filter (fun t => decide (now - dur < t.timestamp * 1000))

/-- The per-bucket filter shared by both aggregation pipelines:
`transferTime >= intervalStart && transferTime < intervalTime`. -/
def intervalTransfers (transfers : List Transfer) (now : ℤ) (i : ℕ) : List Transfer :=
  transfers.filter (fun t =>
    decide (bucketStart now i ≤ t.timestamp * 1000 ∧ t.timestamp * 1000 < bucketEnd now i))

/-- The source's `reduce((sum, t) => sum + Number.parseFloat(t.amount), 0)`. -/
def sumAmounts (transfers : List Transfer) : ℚ :=
  transfers.foldl (fun s t => s + t.amount) 0

/-- One record produced by `processTransfers` in
`src/app/api/bridge-data/route.ts`; `time` is the instant rendered by
`toISOString()` (ISO-8601 rendering is injective, so the instant itself is
kept). -/
structure BridgeDataItem where
  time : ℤ
  amount : ℚ
  usdValue : ℚ
deriving DecidableEq

/-- The body of one iteration of the inner bucket loop of
`processTransfers`: sums the amounts of the (already prefiltered) transfers
falling in bucket `i` and prices them. -/
def bridgePoint (rel : List Transfer) (sourcePrice : ℚ) (now : ℤ) (i : ℕ) :
    BridgeDataItem :=
  let its := intervalTransfers rel now i
  let totalAmount := sumAmounts its
  { time := bucketEnd now i, amount := totalAmount, usdValue := totalAmount * sourcePrice }

/-- The body of `processTransfers` for one `[range, duration]` pair:
prefilters transfers to the range, then for each of
`duration / (15 * 60 * 1000)` buckets sums the matching transfer amounts
and prices them. -/
def processRange (transfers : List Transfer) (sourcePrice : ℚ) (now dur : ℤ) :
    List BridgeDataItem :=
  (List.range (dur / bucketWidthMs).toNat).map
    (bridgePoint (relevantTransfers transfers now dur) sourcePrice now)

/-- The four window keys of every produced result object. -/
structure WindowLists (α : Type) where
  h1 : List α
  h6 : List α
  h12 : List α
  h24 : List α
deriving DecidableEq

/-- Embedding of `processTransfers` from `src/app/api/bridge-data/route.ts`:
iterates `processRange` over the four window durations; `now` is
`roundToNearestHour(new Date())`, recomputed identically in each loop
iteration. -/
def processTransfers (transfers : List Transfer) (sourcePrice : ℚ) (nowRaw : ℤ) :
    WindowLists BridgeDataItem :=
  let now := roundToNearestHour nowRaw
  { h1 := processRange transfers sourcePrice now (60 * 60 * 1000)
    h6 := processRange transfers sourcePrice now (6 * 60 * 60 * 1000)
    h12 := processRange transfers sourcePrice now (12 * 60 * 60 * 1000)
    h24 := processRange transfers sourcePrice now (24 * 60 * 60 * 1000) }

/-- The full response shape of the bridge-data route: one window map per
chain pair. -/
structure BridgeData where
  solAvax : WindowLists BridgeDataItem
  ethAvax : WindowLists BridgeDataItem
deriving DecidableEq

/-- Result of `fetchBitfinexPrices` when it succeeds (it returns `null` on
any error, modelled by `Option Prices` at the call site). -/
structure Prices where
  sol : ℚ
  eth : ℚ
  avax : ℚ
deriving DecidableEq

/-- Result of `fetchDefiLlamaBridgeData` when it succeeds: the recent
transfers filtered to the two chain pairs. -/
structure BridgePair where
  solAvax : List Transfer
  ethAvax : List Transfer
deriving DecidableEq

/-- Embedding of `fetchRealBridgeData`: if either upstream fetch returned
`null` it throws, and its own catch converts the throw into
`generateMockData()` (the mock, randomness abstracted, is a parameter), so
the function never fails. -/
def fetchRealBridgeData (prices : Option Prices) (bridgeData : Option BridgePair)
    (mock : BridgeData) (nowRaw : ℤ) : BridgeData :=
  match prices, bridgeData with
  | some p, some b =>
      { solAvax := processTransfers b.solAvax p.sol nowRaw
        ethAvax := processTransfers b.ethAvax p.eth nowRaw }
  | _, _ => mock

/-- One record produced by the inflow pipeline in `src/unnamed/part_001`. -/
structure InflowDataItem where
  time : ℤ
  exchangeAmount : ℚ
  totalInflow : ℚ
  solBridgeAmount : ℚ
  ethBridgeAmount : ℚ
deriving DecidableEq

/-- Result of `fetchExchangeData`: three per-venue figures. -/
structure ExchangeData where
  binance : ℚ
  coinbase : ℚ
  kraken : ℚ
deriving DecidableEq

/-- The body of one iteration of the inner bucket loop of
`fetchRealInflowData`: per-chain sums of the bucket's transfers, the
exchange total spread evenly over the window's buckets, and `totalInflow`
derived as the sum of the three fields. -/
def inflowPoint (rel : List Transfer) (exchangeData : ExchangeData)
    (intervals : ℕ) (now : ℤ) (i : ℕ) : InflowDataItem :=
  let its := intervalTransfers rel now i
  let solBridgeAmount := sumAmounts (its.filter (fun t => decide (t.fromChain = "Solana")))
  let ethBridgeAmount := sumAmounts (its.filter (fun t => decide (t.fromChain = "Ethereum")))
  let exchangeAmount :=
    (exchangeData.binance + exchangeData.coinbase + exchangeData.kraken) / (intervals : ℚ)
  { time := bucketEnd now i
    exchangeAmount := exchangeAmount
    totalInflow := exchangeAmount + solBridgeAmount + ethBridgeAmount
    solBridgeAmount := solBridgeAmount
    ethBridgeAmount := ethBridgeAmount }

/-- The body of `fetchRealInflowData` for one `[range, duration]` pair:
prefilters the bridge transfers to the range, then produces one
`inflowPoint` per bucket. -/
def inflowRange (bridgeData : List Transfer) (exchangeData : ExchangeData)
    (now dur : ℤ) : List InflowDataItem :=
  (List.range (dur / bucketWidthMs).toNat).map
    (inflowPoint (relevantTransfers bridgeData now dur) exchangeData
      (dur / bucketWidthMs).toNat now)

/-- The full inflow response: four window lists plus the reference price. -/
structure InflowData where
  h1 : List InflowDataItem
  h6 : List InflowDataItem
  h12 : List InflowDataItem
  h24 : List InflowDataItem
  avaxPrice : ℚ
deriving DecidableEq

/-- Embedding of `fetchRealInflowData` from `src/unnamed/part_001`: after the
joined upstream fetches, `if (!avaxPrice) throw` (a falsy price, modelled as
0, fails the whole producer), then the four windows are aggregated from the
hour-truncated reference instant. -/
def fetchRealInflowData (avaxPrice : ℚ) (exchangeData : ExchangeData)
    (bridgeData : List Transfer) (nowRaw : ℤ) : Except Unit InflowData :=
  if avaxPrice = 0 then Except.error () else
  let now := roundToNearestHour nowRaw
  Except.ok
    { h1 := inflowRange bridgeData exchangeData now (60 * 60 * 1000)
      h6 := inflowRange bridgeData exchangeData now (6 * 60 * 60 * 1000)
      h12 := inflowRange bridgeData exchangeData now (12 * 60 * 60 * 1000)
      h24 := inflowRange bridgeData exchangeData now (24 * 60 * 60 * 1000)
      avaxPrice := avaxPrice }

/-- The inner `generateDataPoints` of the inflow route's `generateMockData`:
`rnd i` is the triple of floored `Math.random()` draws for index `i`
(exchange, Solana bridge, Ethereum bridge). -/
def mockDataPoints (rnd : ℕ → ℕ × ℕ × ℕ) (nowRaw : ℤ) (count : ℕ) :
    List InflowDataItem :=
  let now := roundToNearestHour nowRaw
  (List.range count).map (fun i =>
    let exchangeAmount : ℚ := ((rnd i).1 : ℚ)
    let solBridgeAmount : ℚ := ((rnd i).2.1 : ℚ)
    let ethBridgeAmount : ℚ := ((rnd i).2.2 : ℚ)
    { time := now - (i : ℤ) * bucketWidthMs
      exchangeAmount := exchangeAmount
      totalInflow := exchangeAmount + solBridgeAmount + ethBridgeAmount
      solBridgeAmount := solBridgeAmount
      ethBridgeAmount := ethBridgeAmount })

/-- Embedding of the inflow route's `generateMockData`: one fresh oracle per
window list, plus the mocked price `20 + Math.random() * 10` as a
parameter. -/
def generateMockData (r1 r6 r12 r24 : ℕ → ℕ × ℕ × ℕ) (mockPrice : ℚ)
    (nowRaw : ℤ) : InflowData :=
  { h1 := mockDataPoints r1 nowRaw 4
    h6 := mockDataPoints r6 nowRaw 24
    h12 := mockDataPoints r12 nowRaw 48
    h24 := mockDataPoints r24 nowRaw 96
    avaxPrice := mockPrice }

/-- One record of the swap route (`src/unnamed/part_002`). -/
structure SwapDataItem where
  time : ℤ
  amount : ℚ
deriving DecidableEq

/-- The swap route's `generateSwapData`: hourly instants going backwards
from `Date.now()`, amounts `Math.floor(random * 100 * solPrice / avaxPrice)`
with the `Math.random()` draws as an oracle. -/
def generateSwapData (solPrice avaxPrice : ℚ) (rnd : ℕ → ℚ) (nowMs : ℤ)
    (count : ℕ) : List SwapDataItem :=
  (List.range count).map (fun (i : ℕ) =>
    { time := nowMs - (i : ℤ) * msPerHour
      amount := (((rnd i) * 100 * solPrice / avaxPrice).floor : ℚ) })

/-- Embedding of `fetchRealSwapData`: every window key is mapped to a list
of 24 hourly points, regardless of the window's duration. -/
def fetchRealSwapData (solPrice avaxPrice : ℚ) (r1 r6 r12 r24 : ℕ → ℚ)
    (nowMs : ℤ) : WindowLists SwapDataItem :=
  { h1 := generateSwapData solPrice avaxPrice r1 nowMs 24
    h6 := generateSwapData solPrice avaxPrice r6 nowMs 24
    h12 := generateSwapData solPrice avaxPrice r12 nowMs 24
    h24 := generateSwapData solPrice avaxPrice r24 nowMs 24 }

/-- The module-level mutable state of each route: `cachedData` starts as
`null` and `lastFetchTime` as 0. -/
structure CacheState (α : Type) where
  cachedData : Option α
  lastFetchTime : ℤ
deriving DecidableEq

/-- Boundary response of a GET handler: a 200 JSON payload, or the 500
error JSON (whose body carries no window data). -/
inductive Response (α : Type) where
  | ok : α → Response α
  | err : Response α
deriving DecidableEq

/-- The shared refresh test `!cachedData || currentTime - lastFetchTime >
CACHE_DURATION` (strict comparison in the source). -/
def needsRefresh {α : Type} (s : CacheState α) (currentTime freshness : ℤ) : Bool :=
  s.cachedData.isNone || decide (currentTime - s.lastFetchTime > freshness)

/-- Embedding of the inflow route's `GET` (`src/unnamed/part_001`,
CACHE_DURATION 15 minutes): on a needed refresh, a producer success is
stored with the current time; a producer failure is caught and the cache is
overwritten with freshly generated mock data, the timestamp untouched;
either way the (now always present) cached data is served with status
200. -/
def inflowGET (s : CacheState InflowData) (currentTime : ℤ)
    (producer : Except Unit InflowData) (mock : InflowData) :
    CacheState InflowData × Response InflowData :=
  if needsRefresh s currentTime (15 * 60 * 1000) then
    match producer with
    | Except.ok d => (⟨some d, currentTime⟩, Response.ok d)
    | Except.error _ => (⟨some mock, s.lastFetchTime⟩, Response.ok mock)
  else
    match s.cachedData with
    | some d => (s, Response.ok d)
    | none => (s, Response.err)

/-- Embedding of the bridge route's `GET` (`src/app/api/bridge-data/route.ts`,
CACHE_DURATION 15 minutes): a throwing refresh returns the 500 error body
without touching the state (its producer `fetchRealBridgeData` in fact
never throws); a fresh cached entry is served unchanged. -/
def bridgeGET (s : CacheState BridgeData) (currentTime : ℤ)
    (producer : Except Unit BridgeData) :
    CacheState BridgeData × Response BridgeData :=
  if needsRefresh s currentTime (15 * 60 * 1000) then
    match producer with
    | Except.ok d => (⟨some d, currentTime⟩, Response.ok d)
    | Except.error _ => (s, Response.err)
  else
    match s.cachedData with
    | some d => (s, Response.ok d)
    | none => (s, Response.err)

/-- Embedding of the swap route's `GET` (`src/unnamed/part_002`,
CACHE_DURATION 6 hours): a throwing refresh returns the 500 error body and
leaves the state unchanged; otherwise the cached data is served (the
`none` branch after a fresh check is unreachable since an absent entry
always triggers the refresh path). -/
def swapGET (s : CacheState (WindowLists SwapDataItem)) (currentTime : ℤ)
    (producer : Except Unit (WindowLists SwapDataItem)) :
    CacheState (WindowLists SwapDataItem) × Response (WindowLists SwapDataItem) :=
  if needsRefresh s currentTime (6 * 60 * 60 * 1000) then
    match producer with
    | Except.ok d => (⟨some d, currentTime⟩, Response.ok d)
    | Except.error _ => (s, Response.err)
  else
    match s.cachedData with
    | some d => (s, Response.ok d)
    | none => (s, Response.err)

/-- All records of an inflow result, across the four windows. -/
def inflowItems (d : InflowData) : List InflowDataItem :=
  d.h1 ++ d.h6 ++ d.h12 ++ d.h24

/-- All records of a possibly-failed inflow producer run. -/
def inflowItemsE (r : Except Unit InflowData) : List InflowDataItem :=
  match r with
  | Except.ok d => inflowItems d
  | Except.error _ => []

lemma mem_inflowRange_total (bd : List Transfer) (ex : ExchangeData) (now dur : ℤ)
    (item : InflowDataItem) (h : item ∈ inflowRange bd ex now dur) :
    item.totalInflow = item.exchangeAmount + item.solBridgeAmount + item.ethBridgeAmount := by
  simp only [inflowRange, List.mem_map] at h
  obtain ⟨i, -, rfl⟩ := h
  rfl

lemma mem_mockDataPoints_total (rnd : ℕ → ℕ × ℕ × ℕ) (nowRaw : ℤ) (count : ℕ)
    (item : InflowDataItem) (h : item ∈ mockDataPoints rnd nowRaw count) :
    item.totalInflow = item.exchangeAmount + item.solBridgeAmount + item.ethBridgeAmount := by
  simp only [mockDataPoints, List.mem_map] at h
  obtain ⟨i, -, rfl⟩ := h
  rfl

/-- C1: every record produced by the inflow pipeline, whether by the real
producer fetchRealInflowData (any of its four windows) or by the fallback
generateMockData, satisfies
totalInflow = exchangeAmount + solBridgeAmount + ethBridgeAmount. -/
theorem C1_totalInflow_invariant (avaxPrice : ℚ) (exchangeData : ExchangeData)
    (bridgeData : List Transfer) (r1 r6 r12 r24 : ℕ → ℕ × ℕ × ℕ) (mockPrice : ℚ)
    (nowRaw : ℤ) (item : InflowDataItem)
    (h : item ∈ inflowItemsE (fetchRealInflowData avaxPrice exchangeData bridgeData nowRaw) ∨
         item ∈ inflowItems (generateMockData r1 r6 r12 r24 mockPrice nowRaw)) :
    item.totalInflow = item.exchangeAmount + item.solBridgeAmount + item.ethBridgeAmount := by
  rcases h with h | h
  · by_cases hp : avaxPrice = 0
    · simp [fetchRealInflowData, hp, inflowItemsE] at h
    · simp only [fetchRealInflowData, hp, if_false, inflowItemsE, inflowItems,
        List.mem_append] at h
      rcases h with ((h | h) | h) | h <;> exact mem_inflowRange_total _ _ _ _ _ h
  · simp only [generateMockData, inflowItems, List.mem_append] at h
    rcases h with ((h | h) | h) | h <;> exact mem_mockDataPoints_total _ _ _ _ h

/-- A fixed oracle used to instantiate mock-data randomness in witnesses. -/
def wRnd3 : ℕ → ℕ × ℕ × ℕ := fun _ => (1, 1, 1)

lemma mem_inflowRange_point (bd : List Transfer) (ex : ExchangeData) (now dur : ℤ)
    (i : ℕ) (hi : i < (dur / bucketWidthMs).toNat) :
    inflowPoint (relevantTransfers bd now dur) ex (dur / bucketWidthMs).toNat now i ∈
      inflowRange bd ex now dur :=
  List.mem_map_of_mem _ (List.mem_range.mpr hi)

lemma fetchRealInflowData_concrete :
    fetchRealInflowData 4 ⟨0, 0, 0⟩ [] 3600000 =
      Except.ok
        { h1 := inflowRange [] ⟨0, 0, 0⟩ 3600000 (60 * 60 * 1000)
          h6 := inflowRange [] ⟨0, 0, 0⟩ 3600000 (6 * 60 * 60 * 1000)
          h12 := inflowRange [] ⟨0, 0, 0⟩ 3600000 (12 * 60 * 60 * 1000)
          h24 := inflowRange [] ⟨0, 0, 0⟩ 3600000 (24 * 60 * 60 * 1000)
          avaxPrice := 4 } := by
  unfold fetchRealInflowData
  norm_num [roundToNearestHour, msPerHour]

lemma C1_concrete_mem :
    (⟨3600000, 0, 0, 0, 0⟩ : InflowDataItem) ∈
      inflowItemsE (fetchRealInflowData 4 ⟨0, 0, 0⟩ [] 3600000) := by
  rw [fetchRealInflowData_concrete]
  have hmem := mem_inflowRange_point [] ⟨0, 0, 0⟩ 3600000 (60 * 60 * 1000) 0 (by decide)
  have hpt : inflowPoint (relevantTransfers [] 3600000 (60 * 60 * 1000)) ⟨0, 0, 0⟩
      (((60 * 60 * 1000 : ℤ)) / bucketWidthMs).toNat 3600000 0 =
      (⟨3600000, 0, 0, 0, 0⟩ : InflowDataItem) := by
    simp [inflowPoint, relevantTransfers, intervalTransfers, sumAmounts, bucketEnd,
      bucketWidthMs]
  rw [hpt] at hmem
  exact List.mem_append_left _ (List.mem_append_left _ (List.mem_append_left _ hmem))

/-- Witness for C1: the first 1h record of a concrete real-producer run. -/
theorem C1_witness :
    ((⟨3600000, 0, 0, 0, 0⟩ : InflowDataItem) ∈
        inflowItemsE (fetchRealInflowData 4 ⟨0, 0, 0⟩ [] 3600000) ∨
      (⟨3600000, 0, 0, 0, 0⟩ : InflowDataItem) ∈
        inflowItems (generateMockData wRnd3 wRnd3 wRnd3 wRnd3 25 3600000)) ∧
    (⟨3600000, 0, 0, 0, 0⟩ : InflowDataItem).totalInflow =
      (⟨3600000, 0, 0, 0, 0⟩ : InflowDataItem).exchangeAmount +
        (⟨3600000, 0, 0, 0, 0⟩ : InflowDataItem).solBridgeAmount +
        (⟨3600000, 0, 0, 0, 0⟩ : InflowDataItem).ethBridgeAmount :=
  ⟨Or.inl C1_concrete_mem,
    C1_totalInflow_invariant 4 ⟨0, 0, 0⟩ [] wRnd3 wRnd3 wRnd3 wRnd3 25 3600000
      ⟨3600000, 0, 0, 0, 0⟩ (Or.inl C1_concrete_mem)⟩

/-- C7: roundToNearestHour truncates to the top of the hour. The result is
at most the input, less than one hour below it, lands on an exact hour
boundary (minutes, seconds and milliseconds all zero, i.e. divisible by
3600000 ms), and agrees on any two instants of the same calendar hour;
hence the whole inflow aggregation, whose bucket boundaries derive from
the truncated instant, is identical for the two instants. -/
theorem C7_roundToNearestHour_props (t u : ℤ)
    (h : t / msPerHour = u / msPerHour)
    (avaxPrice : ℚ) (exchangeData : ExchangeData) (bridgeData : List Transfer) :
    roundToNearestHour t ≤ t ∧
    t - roundToNearestHour t < msPerHour ∧
    roundToNearestHour t % msPerHour = 0 ∧
    roundToNearestHour t = roundToNearestHour u ∧
    fetchRealInflowData avaxPrice exchangeData bridgeData t =
      fetchRealInflowData avaxPrice exchangeData bridgeData u := by
  have heq : roundToNearestHour t = roundToNearestHour u := by
    simp only [roundToNearestHour, msPerHour] at h ⊢
    omega
  refine ⟨?_, ?_, ?_, heq, ?_⟩
  · simp only [roundToNearestHour, msPerHour]
    omega
  · simp only [roundToNearestHour, msPerHour]
    omega
  · simp only [roundToNearestHour, msPerHour]
    omega
  · unfold fetchRealInflowData
    rw [heq]

/-- Witness for C7: 01:00:00.001 and 01:59:59.999 lie in the same hour. -/
theorem C7_witness :
    (3600001 : ℤ) / msPerHour = (7199999 : ℤ) / msPerHour ∧
    (roundToNearestHour 3600001 ≤ 3600001 ∧
      (3600001 : ℤ) - roundToNearestHour 3600001 < msPerHour ∧
      roundToNearestHour 3600001 % msPerHour = 0 ∧
      roundToNearestHour 3600001 = roundToNearestHour 7199999 ∧
      fetchRealInflowData 1 ⟨0, 0, 0⟩ [] 3600001 =
        fetchRealInflowData 1 ⟨0, 0, 0⟩ [] 7199999) :=
  ⟨by decide, C7_roundToNearestHour_props 3600001 7199999 (by decide) 1 ⟨0, 0, 0⟩ []⟩

lemma mem_intervalTransfers_iff (transfers : List Transfer) (now dur : ℤ) (i : ℕ)
    (t : Transfer) :
    t ∈ intervalTransfers (relevantTransfers transfers now dur) now i ↔
      t ∈ transfers ∧ now - dur < t.timestamp * 1000 ∧
        bucketStart now i ≤ t.timestamp * 1000 ∧ t.timestamp * 1000 < bucketEnd now i := by
  simp only [intervalTransfers, relevantTransfers, List.mem_filter,
    decide_eq_true_eq]
  tauto

/-- A transfer timed exactly at the start instant of a 1h window ending at
the reference instant 3600000 ms. -/
def wT0 : Transfer := ⟨0, "Solana", 5⟩

/-- C2 counterexample: the transfer wT0 has its timestamp exactly at
now - windowDuration, so it lies in the claimed half-open window
(timestamp in the interval from now - windowDuration inclusive to now
exclusive), yet the range prefilter of the aggregation is strict and the
transfer is counted in none of the window's four buckets, not in exactly
one as the claim states. -/
theorem C2_counterexample :
    ((3600000 : ℤ) - 3600000 ≤ wT0.timestamp * 1000 ∧ wT0.timestamp * 1000 < 3600000) ∧
    wT0 ∉ intervalTransfers (relevantTransfers [wT0] 3600000 3600000) 3600000 0 ∧
    wT0 ∉ intervalTransfers (relevantTransfers [wT0] 3600000 3600000) 3600000 1 ∧
    wT0 ∉ intervalTransfers (relevantTransfers [wT0] 3600000 3600000) 3600000 2 ∧
    wT0 ∉ intervalTransfers (relevantTransfers [wT0] 3600000 3600000) 3600000 3 := by
  decide

/-- C2 amended: in both aggregation pipelines (the bridge route's
processTransfers and the inflow route's fetchRealInflowData, which share
the filters relevantTransfers and intervalTransfers), an event whose
timestamp lies strictly inside the open-below window (from
now - windowDuration exclusive to now exclusive) is counted in exactly one
bucket i, the one with bucketStart ≤ timestamp < bucketEnd; an event at or
before now - windowDuration — including the window-start instant itself,
which the claimed half-open window would admit — or at or past now is
counted in no bucket; and an event exactly on an interior bucket boundary
belongs to the more recent of the two adjacent buckets, never both. -/
theorem C2_bucket_membership_amended (transfers : List Transfer) (t : Transfer)
    (ht : t ∈ transfers) (now dur : ℤ) (k : ℕ)
    (hdur : dur = (k : ℤ) * bucketWidthMs) :
    (now - dur < t.timestamp * 1000 ∧ t.timestamp * 1000 < now →
      ∃! i : ℕ, i < k ∧
        t ∈ intervalTransfers (relevantTransfers transfers now dur) now i) ∧
    (t.timestamp * 1000 ≤ now - dur ∨ now ≤ t.timestamp * 1000 →
      ∀ i : ℕ, t ∉ intervalTransfers (relevantTransfers transfers now dur) now i) ∧
    (∀ i : ℕ, t.timestamp * 1000 = bucketStart now i →
      now - dur < t.timestamp * 1000 →
      t ∈ intervalTransfers (relevantTransfers transfers now dur) now i ∧
        t ∉ intervalTransfers (relevantTransfers transfers now dur) now (i + 1)) := by
  have hbw : bucketWidthMs = 900000 := by norm_num [bucketWidthMs]
  rw [hbw] at hdur
  have key : ∀ i : ℕ,
      t ∈ intervalTransfers (relevantTransfers transfers now dur) now i ↔
        now - dur < t.timestamp * 1000 ∧
          now - ((i : ℤ) + 1) * 900000 ≤ t.timestamp * 1000 ∧
          t.timestamp * 1000 < now - (i : ℤ) * 900000 := by
    intro i
    rw [mem_intervalTransfers_iff]
    simp [ht, bucketStart, bucketEnd, hbw, and_assoc]
  refine ⟨?_, ?_, ?_⟩
  · rintro ⟨hlo, hhi⟩
    have hq := Int.ediv_add_emod (now - t.timestamp * 1000 - 1) 900000
    have hr0 : 0 ≤ (now - t.timestamp * 1000 - 1) % 900000 :=
      Int.emod_nonneg _ (by norm_num)
    have hr1 : (now - t.timestamp * 1000 - 1) % 900000 < 900000 :=
      Int.emod_lt_of_pos _ (by norm_num)
    have hq0 : 0 ≤ (now - t.timestamp * 1000 - 1) / 900000 := by omega
    have htn := Int.toNat_of_nonneg hq0
    refine ⟨((now - t.timestamp * 1000 - 1) / 900000).toNat, ⟨by omega, ?_⟩, ?_⟩
    · rw [key]
      refine ⟨hlo, ?_, ?_⟩ <;> omega
    · rintro j ⟨hjk, hj⟩
      rw [key] at hj
      omega
  · rintro hout i hmem
    rw [key] at hmem
    omega
  · intro i hstart hlo
    rw [bucketStart, hbw] at hstart
    constructor
    · rw [key]
      refine ⟨hlo, ?_, ?_⟩ <;> omega
    · rw [key]
      omega

/-- A transfer strictly inside the 1h window ending at 3600000 ms. -/
def wT1 : Transfer := ⟨1800, "Solana", 5⟩

/-- Witness for C2 at a concrete transfer inside a concrete window. -/
theorem C2_witness :
    wT1 ∈ [wT1] ∧ (3600000 : ℤ) = ((4 : ℕ) : ℤ) * bucketWidthMs ∧
    (((3600000 : ℤ) - 3600000 < wT1.timestamp * 1000 ∧ wT1.timestamp * 1000 < 3600000 →
        ∃! i : ℕ, i < 4 ∧
          wT1 ∈ intervalTransfers (relevantTransfers [wT1] 3600000 3600000) 3600000 i) ∧
      (wT1.timestamp * 1000 ≤ (3600000 : ℤ) - 3600000 ∨ (3600000 : ℤ) ≤ wT1.timestamp * 1000 →
        ∀ i : ℕ, wT1 ∉ intervalTransfers (relevantTransfers [wT1] 3600000 3600000) 3600000 i) ∧
      (∀ i : ℕ, wT1.timestamp * 1000 = bucketStart 3600000 i →
        (3600000 : ℤ) - 3600000 < wT1.timestamp * 1000 →
        wT1 ∈ intervalTransfers (relevantTransfers [wT1] 3600000 3600000) 3600000 i ∧
          wT1 ∉ intervalTransfers (relevantTransfers [wT1] 3600000 3600000) 3600000 (i + 1))) :=
  ⟨by decide, by decide,
    C2_bucket_membership_amended [wT1] wT1 (by decide) 3600000 3600000 4 (by decide)⟩

/-- A fixed oracle for the swap route's randomness in concrete instances. -/
def wRndQ : ℕ → ℚ := fun _ => 0

/-- C3 counterexample: the swap data source maps the 1h window key to 24
records, not to windowDuration / 15min = 4 as the claim states for every
data source. -/
theorem C3_counterexample :
    (fetchRealSwapData 1 1 wRndQ wRndQ wRndQ wRndQ 0).h1.length = 24 ∧
    (24 : ℕ) ≠ 4 := by
  constructor
  · simp [fetchRealSwapData, generateSwapData]
  · decide

/-- C3 amended: the inflow and bridge pipelines produce exactly
windowDuration / 15min records per window (4, 24, 48, 96), but the swap
source produces 24 hourly records for every window key regardless of its
duration. -/
theorem C3_window_lengths_amended (transfers bd : List Transfer)
    (sourcePrice avaxPrice solP avaxP : ℚ) (hp : avaxPrice ≠ 0)
    (ex : ExchangeData) (r1 r6 r12 r24 : ℕ → ℚ) (nowRaw nowMs : ℤ) :
    (processTransfers transfers sourcePrice nowRaw).h1.length = 4 ∧
    (processTransfers transfers sourcePrice nowRaw).h6.length = 24 ∧
    (processTransfers transfers sourcePrice nowRaw).h12.length = 48 ∧
    (processTransfers transfers sourcePrice nowRaw).h24.length = 96 ∧
    (fetchRealInflowData avaxPrice ex bd nowRaw).map
        (fun d => (d.h1.length, d.h6.length, d.h12.length, d.h24.length)) =
      Except.ok (4, 24, 48, 96) ∧
    (fetchRealSwapData solP avaxP r1 r6 r12 r24 nowMs).h1.length = 24 ∧
    (fetchRealSwapData solP avaxP r1 r6 r12 r24 nowMs).h6.length = 24 ∧
    (fetchRealSwapData solP avaxP r1 r6 r12 r24 nowMs).h12.length = 24 ∧
    (fetchRealSwapData solP avaxP r1 r6 r12 r24 nowMs).h24.length = 24 := by
  refine ⟨?_, ?_, ?_, ?_, ?_, ?_, ?_, ?_, ?_⟩ <;>
    simp [processTransfers, processRange, inflowRange, fetchRealSwapData,
      generateSwapData, fetchRealInflowData, hp, bucketWidthMs, Except.map]

/-- Witness for C3 at concrete inputs. -/
theorem C3_witness :
    ((1 : ℚ) ≠ 0) ∧
    ((processTransfers [] 1 0).h1.length = 4 ∧
      (processTransfers [] 1 0).h6.length = 24 ∧
      (processTransfers [] 1 0).h12.length = 48 ∧
      (processTransfers [] 1 0).h24.length = 96 ∧
      (fetchRealInflowData 1 ⟨0, 0, 0⟩ [] 0).map
          (fun d => (d.h1.length, d.h6.length, d.h12.length, d.h24.length)) =
        Except.ok (4, 24, 48, 96) ∧
      (fetchRealSwapData 1 1 wRndQ wRndQ wRndQ wRndQ 0).h1.length = 24 ∧
      (fetchRealSwapData 1 1 wRndQ wRndQ wRndQ wRndQ 0).h6.length = 24 ∧
      (fetchRealSwapData 1 1 wRndQ wRndQ wRndQ wRndQ 0).h12.length = 24 ∧
      (fetchRealSwapData 1 1 wRndQ wRndQ wRndQ wRndQ 0).h24.length = 24) :=
  ⟨by decide,
    C3_window_lengths_amended [] [] 1 1 1 1 (by decide) ⟨0, 0, 0⟩
      wRndQ wRndQ wRndQ wRndQ 0 0⟩

/-- A concrete cached inflow entry. -/
def wInflowA : InflowData := ⟨[], [], [], [], 1⟩

/-- A concrete inflow mock result, distinct from wInflowA. -/
def wInflowB : InflowData := ⟨[], [], [], [], 2⟩

/-- A concrete cached swap entry. -/
def wSwapA : WindowLists SwapDataItem := ⟨[], [], [], []⟩

/-- A concrete bridge mock result. -/
def wBridgeA : BridgeData := ⟨⟨[], [], [], []⟩, ⟨[], [], [], []⟩⟩

/-- C4 counterexample: with a cached entry wInflowA present and stale, a
failing producer makes the inflow GET overwrite the stored entry with the
fresh mock wInflowB and serve the mock, so the stored entry is changed and
the stale entry is not served, contrary to the claim. -/
theorem C4_counterexample :
    (inflowGET ⟨some wInflowA, 0⟩ 1000000 (Except.error ()) wInflowB).1.cachedData ≠
      some wInflowA ∧
    (inflowGET ⟨some wInflowA, 0⟩ 1000000 (Except.error ()) wInflowB).2 =
      Response.ok wInflowB := by
  decide

/-- C4 amended: when the producer fails during a needed refresh while an
entry exists, the inflow route replaces the stored entry with freshly
generated mock data (timestamp unchanged) and serves the mock without a
user-visible error; the swap route leaves entry and timestamp unchanged
but answers with the 500 error body instead of the stale entry; and the
bridge route's producer fetchRealBridgeData never fails — an upstream
failure makes it return mock data, which the GET then stores together with
an updated timestamp. -/
theorem C4_producer_failure_amended
    (e mock : InflowData) (t now : ℤ) (hstale : now - t > 15 * 60 * 1000)
    (es : WindowLists SwapDataItem) (ts nows : ℤ)
    (hs : nows - ts > 6 * 60 * 60 * 1000)
    (bmock : BridgeData) (bd : Option BridgePair) (nowRaw : ℤ)
    (sb : CacheState BridgeData) (nowb : ℤ)
    (hb : needsRefresh sb nowb (15 * 60 * 1000) = true) :
    inflowGET ⟨some e, t⟩ now (Except.error ()) mock =
      (⟨some mock, t⟩, Response.ok mock) ∧
    swapGET ⟨some es, ts⟩ nows (Except.error ()) = (⟨some es, ts⟩, Response.err) ∧
    fetchRealBridgeData none bd bmock nowRaw = bmock ∧
    bridgeGET sb nowb (Except.ok bmock) = (⟨some bmock, nowb⟩, Response.ok bmock) := by
  have h1 : needsRefresh (⟨some e, t⟩ : CacheState InflowData) now
      (15 * 60 * 1000) = true := by
    simp [needsRefresh]
    omega
  have h2 : needsRefresh (⟨some es, ts⟩ : CacheState (WindowLists SwapDataItem))
      nows (6 * 60 * 60 * 1000) = true := by
    simp [needsRefresh]
    omega
  refine ⟨?_, ?_, ?_, ?_⟩
  · unfold inflowGET
    rw [h1]
    rfl
  · unfold swapGET
    rw [h2]
    rfl
  · cases bd <;> rfl
  · unfold bridgeGET
    rw [hb]
    rfl

/-- Witness for C4 at concrete states and times. -/
theorem C4_witness :
    ((1000000 : ℤ) - 0 > 15 * 60 * 1000) ∧
    ((22000000 : ℤ) - 0 > 6 * 60 * 60 * 1000) ∧
    needsRefresh (⟨some wBridgeA, 0⟩ : CacheState BridgeData) 1000000
      (15 * 60 * 1000) = true ∧
    (inflowGET ⟨some wInflowA, 0⟩ 1000000 (Except.error ()) wInflowB =
        (⟨some wInflowB, 0⟩, Response.ok wInflowB) ∧
      swapGET ⟨some wSwapA, 0⟩ 22000000 (Except.error ()) =
        (⟨some wSwapA, 0⟩, Response.err) ∧
      fetchRealBridgeData none none wBridgeA 0 = wBridgeA ∧
      bridgeGET ⟨some wBridgeA, 0⟩ 1000000 (Except.ok wBridgeA) =
        (⟨some wBridgeA, 1000000⟩, Response.ok wBridgeA)) :=
  ⟨by decide, by decide, by decide,
    C4_producer_failure_amended wInflowA wInflowB 0 1000000 (by decide)
      wSwapA 0 22000000 (by decide) wBridgeA none 0 ⟨some wBridgeA, 0⟩ 1000000
      (by decide)⟩

/-- C5 counterexample: with no cached entry and a failing producer, the
swap GET answers with the 500 error body — which carries none of the four
window keys — and stores nothing, so this data source does not return a
well-formed WindowedResult as the claim states for every source. -/
theorem C5_counterexample :
    (swapGET ⟨none, 0⟩ 5 (Except.error ())).2 = Response.err ∧
    (swapGET ⟨none, 0⟩ 5 (Except.error ())).1.cachedData = none := by
  decide

/-- C5 amended: with no cached entry and a failing producer, the inflow
route stores and serves freshly generated mock data (a well-formed result)
and the bridge route stores and serves the mock its producer substituted
internally, but the swap route surfaces the failure as the 500 error body
with no window data; no route lets the failure propagate as an unhandled
throw (each GET is a total step function). -/
theorem C5_fallback_amended (t now : ℤ) (mock : InflowData)
    (bd : Option BridgePair) (bmock : BridgeData)
    (nowRaw tb nowb tsw nowsw : ℤ) :
    inflowGET ⟨none, t⟩ now (Except.error ()) mock =
      (⟨some mock, t⟩, Response.ok mock) ∧
    bridgeGET ⟨none, tb⟩ nowb (Except.ok (fetchRealBridgeData none bd bmock nowRaw)) =
      (⟨some bmock, nowb⟩, Response.ok bmock) ∧
    swapGET ⟨none, tsw⟩ nowsw (Except.error ()) = (⟨none, tsw⟩, Response.err) := by
  refine ⟨?_, ?_, ?_⟩
  · simp [inflowGET, needsRefresh]
  · cases bd <;> simp [bridgeGET, needsRefresh, fetchRealBridgeData]
  · simp [swapGET, needsRefresh]

/-- C6: each boundary GET refreshes exactly when no entry exists or the
entry is strictly older than the freshness duration (15 minutes for inflow
and bridge, 6 hours for swap). A fresh cached entry is served unchanged
with the state untouched, for an arbitrary producer (so the producer is
not consulted); a needed refresh with a succeeding producer replaces the
stored entry and the timestamp together and serves the new entry. -/
theorem C6_cache_freshness
    (si : CacheState InflowData) (ei : InflowData) (hei : si.cachedData = some ei)
    (ni : ℤ) (hfi : ¬ ni - si.lastFetchTime > 15 * 60 * 1000)
    (pinf : Except Unit InflowData) (mi : InflowData)
    (sb : CacheState BridgeData) (eb : BridgeData) (heb : sb.cachedData = some eb)
    (nb : ℤ) (hfb : ¬ nb - sb.lastFetchTime > 15 * 60 * 1000)
    (pbr : Except Unit BridgeData)
    (ss : CacheState (WindowLists SwapDataItem)) (es : WindowLists SwapDataItem)
    (hes : ss.cachedData = some es) (ns : ℤ)
    (hfs : ¬ ns - ss.lastFetchTime > 6 * 60 * 60 * 1000)
    (psw : Except Unit (WindowLists SwapDataItem))
    (s2i : CacheState InflowData) (n2i : ℤ)
    (h2i : s2i.cachedData = none ∨ n2i - s2i.lastFetchTime > 15 * 60 * 1000)
    (di m2 : InflowData)
    (s2b : CacheState BridgeData) (n2b : ℤ)
    (h2b : s2b.cachedData = none ∨ n2b - s2b.lastFetchTime > 15 * 60 * 1000)
    (db : BridgeData)
    (s2s : CacheState (WindowLists SwapDataItem)) (n2s : ℤ)
    (h2s : s2s.cachedData = none ∨ n2s - s2s.lastFetchTime > 6 * 60 * 60 * 1000)
    (ds : WindowLists SwapDataItem) :
    inflowGET si ni pinf mi = (si, Response.ok ei) ∧
    bridgeGET sb nb pbr = (sb, Response.ok eb) ∧
    swapGET ss ns psw = (ss, Response.ok es) ∧
    inflowGET s2i n2i (Except.ok di) m2 = (⟨some di, n2i⟩, Response.ok di) ∧
    bridgeGET s2b n2b (Except.ok db) = (⟨some db, n2b⟩, Response.ok db) ∧
    swapGET s2s n2s (Except.ok ds) = (⟨some ds, n2s⟩, Response.ok ds) := by
  have e1 : needsRefresh si ni (15 * 60 * 1000) = false := by
    simp [needsRefresh, hei]
    omega
  have e2 : needsRefresh sb nb (15 * 60 * 1000) = false := by
    simp [needsRefresh, heb]
    omega
  have e3 : needsRefresh ss ns (6 * 60 * 60 * 1000) = false := by
    simp [needsRefresh, hes]
    omega
  have e4 : needsRefresh s2i n2i (15 * 60 * 1000) = true := by
    rcases h2i with h | h
    · simp [needsRefresh, h]
    · simp only [needsRefresh, Bool.or_eq_true, decide_eq_true_eq]
      right
      omega
  have e5 : needsRefresh s2b n2b (15 * 60 * 1000) = true := by
    rcases h2b with h | h
    · simp [needsRefresh, h]
    · simp only [needsRefresh, Bool.or_eq_true, decide_eq_true_eq]
      right
      omega
  have e6 : needsRefresh s2s n2s (6 * 60 * 60 * 1000) = true := by
    rcases h2s with h | h
    · simp [needsRefresh, h]
    · simp only [needsRefresh, Bool.or_eq_true, decide_eq_true_eq]
      right
      omega
  refine ⟨?_, ?_, ?_, ?_, ?_, ?_⟩
  · unfold inflowGET
    rw [e1, hei]
    rfl
  · unfold bridgeGET
    rw [e2, heb]
    rfl
  · unfold swapGET
    rw [e3, hes]
    rfl
  · unfold inflowGET
    rw [e4]
    rfl
  · unfold bridgeGET
    rw [e5]
    rfl
  · unfold swapGET
    rw [e6]
    rfl

/-- Witness for C6: fresh states at time 100, refresh states with no
entry at time 7. -/
theorem C6_witness :
    (⟨some wInflowA, 0⟩ : CacheState InflowData).cachedData = some wInflowA ∧
    ¬ (100 : ℤ) - (⟨some wInflowA, 0⟩ : CacheState InflowData).lastFetchTime >
      15 * 60 * 1000 ∧
    (⟨some wBridgeA, 0⟩ : CacheState BridgeData).cachedData = some wBridgeA ∧
    ¬ (100 : ℤ) - (⟨some wBridgeA, 0⟩ : CacheState BridgeData).lastFetchTime >
      15 * 60 * 1000 ∧
    (⟨some wSwapA, 0⟩ : CacheState (WindowLists SwapDataItem)).cachedData =
      some wSwapA ∧
    ¬ (100 : ℤ) -
        (⟨some wSwapA, 0⟩ : CacheState (WindowLists SwapDataItem)).lastFetchTime >
      6 * 60 * 60 * 1000 ∧
    ((⟨none, 0⟩ : CacheState InflowData).cachedData = none ∨
      (7 : ℤ) - (⟨none, 0⟩ : CacheState InflowData).lastFetchTime > 15 * 60 * 1000) ∧
    ((⟨none, 0⟩ : CacheState BridgeData).cachedData = none ∨
      (7 : ℤ) - (⟨none, 0⟩ : CacheState BridgeData).lastFetchTime > 15 * 60 * 1000) ∧
    ((⟨none, 0⟩ : CacheState (WindowLists SwapDataItem)).cachedData = none ∨
      (7 : ℤ) - (⟨none, 0⟩ : CacheState (WindowLists SwapDataItem)).lastFetchTime >
        6 * 60 * 60 * 1000) ∧
    (inflowGET ⟨some wInflowA, 0⟩ 100 (Except.error ()) wInflowB =
        (⟨some wInflowA, 0⟩, Response.ok wInflowA) ∧
      bridgeGET ⟨some wBridgeA, 0⟩ 100 (Except.error ()) =
        (⟨some wBridgeA, 0⟩, Response.ok wBridgeA) ∧
      swapGET ⟨some wSwapA, 0⟩ 100 (Except.error ()) =
        (⟨some wSwapA, 0⟩, Response.ok wSwapA) ∧
      inflowGET ⟨none, 0⟩ 7 (Except.ok wInflowA) wInflowB =
        (⟨some wInflowA, 7⟩, Response.ok wInflowA) ∧
      bridgeGET ⟨none, 0⟩ 7 (Except.ok wBridgeA) =
        (⟨some wBridgeA, 7⟩, Response.ok wBridgeA) ∧
      swapGET ⟨none, 0⟩ 7 (Except.ok wSwapA) =
        (⟨some wSwapA, 7⟩, Response.ok wSwapA)) :=
  ⟨rfl, by decide, rfl, by decide, rfl, by decide, Or.inl rfl, Or.inl rfl,
    Or.inl rfl,
    C6_cache_freshness ⟨some wInflowA, 0⟩ wInflowA rfl 100 (by decide)
      (Except.error ()) wInflowB ⟨some wBridgeA, 0⟩ wBridgeA rfl 100 (by decide)
      (Except.error ()) ⟨some wSwapA, 0⟩ wSwapA rfl 100 (by decide)
      (Except.error ()) ⟨none, 0⟩ 7 (Or.inl rfl) wInflowA wInflowB ⟨none, 0⟩ 7
      (Or.inl rfl) wBridgeA ⟨none, 0⟩ 7 (Or.inl rfl) wSwapA⟩

/-- C8 counterexample: the first 1h record produced over an empty transfer
list carries time 3600000 ms, which is bucketEnd of bucket 0 (the newer
endpoint), whereas the claimed bucket start of bucket 0 is 2700000 ms. -/
theorem C8_counterexample :
    ((processRange [] 1 3600000 3600000).head?.map BridgeDataItem.time) =
      some (bucketEnd 3600000 0) ∧
    bucketEnd 3600000 0 = 3600000 ∧ bucketStart 3600000 0 = 2700000 ∧
    (3600000 : ℤ) ≠ 2700000 := by
  refine ⟨?_, by decide, by decide, by decide⟩
  rfl

/-- C8 amended: in both aggregation pipelines, the time field of record i
is the ISO-8601 rendering of bucketEnd (the source's intervalTime, the
newer endpoint of the bucket's half-open interval), not of the bucket
start as the claim states. -/
theorem C8_time_field_amended (transfers : List Transfer) (sourcePrice : ℚ)
    (now dur : ℤ) (ex : ExchangeData) (bd : List Transfer) :
    (processRange transfers sourcePrice now dur).map BridgeDataItem.time =
      (List.range (dur / bucketWidthMs).toNat).map (bucketEnd now) ∧
    (inflowRange bd ex now dur).map InflowDataItem.time =
      (List.range (dur / bucketWidthMs).toNat).map (bucketEnd now) := by
  constructor
  · rw [processRange, List.map_map]
    rfl
  · rw [inflowRange, List.map_map]
    rfl

lemma relevantTransfers_nil (now dur : ℤ) : relevantTransfers [] now dur = [] := rfl

lemma inflowPoint_nil (ex : ExchangeData) (n : ℕ) (now : ℤ) (i : ℕ) :
    inflowPoint [] ex n now i =
      ⟨bucketEnd now i, (ex.binance + ex.coinbase + ex.kraken) / (n : ℚ),
        (ex.binance + ex.coinbase + ex.kraken) / (n : ℚ), 0, 0⟩ := by
  simp [inflowPoint, intervalTransfers, sumAmounts]

/-- C9 counterexample: over an empty event list with fetched exchange
figures summing to 400, the first 1h inflow record is not all-zero: its
exchangeAmount is 100 and its totalInflow is 100, refuting the claim that
every category sum of the record is the number 0. -/
theorem C9_counterexample :
    (inflowRange [] ⟨400, 0, 0⟩ 3600000 3600000).head? =
      some ⟨3600000, 100, 100, 0, 0⟩ ∧
    (100 : ℚ) ≠ 0 := by
  constructor
  · have h4 : List.range ((3600000 : ℤ) / bucketWidthMs).toNat = [0, 1, 2, 3] := by
      decide
    rw [inflowRange, h4]
    have hpt : inflowPoint (relevantTransfers [] 3600000 3600000) ⟨400, 0, 0⟩
        ((3600000 : ℤ) / bucketWidthMs).toNat 3600000 0 =
        (⟨3600000, 100, 100, 0, 0⟩ : InflowDataItem) := by
      rw [relevantTransfers_nil, inflowPoint_nil]
      have ht4 : (4 : ℤ).toNat = (4 : ℕ) := rfl
      norm_num [bucketEnd, bucketWidthMs, ht4]
    simp [hpt]
  · norm_num

/-- C9 amended: for arbitrary event lists, whenever a bucket i receives no
events (the bucket's selected transfer list is empty — in particular this
holds for every bucket when the whole event list is empty), the record of
that bucket has every event-derived sum equal to the number 0, never null
or absent: amount and hence usdValue in the bridge record, solBridgeAmount
and ethBridgeAmount in the inflow record; the full sequence of
windowDuration / 15min records is still produced as a valid non-error
result; but the inflow record's exchangeAmount equals the fetched exchange
total divided by the bucket count (not 0 in general), and totalInflow then
equals that exchangeAmount. -/
theorem C9_empty_events_amended (sourcePrice : ℚ) (ex : ExchangeData)
    (transfers bd : List Transfer) (now dur : ℤ) (k : ℕ) (hk : 0 < k)
    (hdur : dur = (k : ℤ) * bucketWidthMs)
    (i : ℕ) (hi : i < (processRange transfers sourcePrice now dur).length)
    (hempty : intervalTransfers (relevantTransfers transfers now dur) now i = [])
    (j : ℕ) (hj : j < (inflowRange bd ex now dur).length)
    (hempty2 : intervalTransfers (relevantTransfers bd now dur) now j = []) :
    ((processRange transfers sourcePrice now dur)[i]).amount = 0 ∧
    ((processRange transfers sourcePrice now dur)[i]).usdValue = 0 ∧
    ((inflowRange bd ex now dur)[j]).solBridgeAmount = 0 ∧
    ((inflowRange bd ex now dur)[j]).ethBridgeAmount = 0 ∧
    ((inflowRange bd ex now dur)[j]).exchangeAmount =
      (ex.binance + ex.coinbase + ex.kraken) / (k : ℚ) ∧
    ((inflowRange bd ex now dur)[j]).totalInflow =
      ((inflowRange bd ex now dur)[j]).exchangeAmount ∧
    intervalTransfers (relevantTransfers [] now dur) now i = [] ∧
    (processRange [] sourcePrice now dur).length = k ∧
    (processRange transfers sourcePrice now dur).length = k ∧
    (inflowRange bd ex now dur).length = k := by
  have hn : ((dur / bucketWidthMs : ℤ)).toNat = k := by
    subst hdur
    rw [Int.mul_ediv_cancel _ (by norm_num [bucketWidthMs] : bucketWidthMs ≠ 0)]
    simp
  have hpi : (processRange transfers sourcePrice now dur)[i] =
      bridgePoint (relevantTransfers transfers now dur) sourcePrice now i := by
    simp [processRange, List.getElem_map, List.getElem_range]
  have hpj : (inflowRange bd ex now dur)[j] =
      inflowPoint (relevantTransfers bd now dur) ex
        ((dur / bucketWidthMs : ℤ)).toNat now j := by
    simp [inflowRange, List.getElem_map, List.getElem_range]
  rw [hpi, hpj]
  refine ⟨?_, ?_, ?_, ?_, ?_, ?_, rfl, ?_, ?_, ?_⟩
  · simp [bridgePoint, hempty, sumAmounts]
  · simp [bridgePoint, hempty, sumAmounts]
  · simp [inflowPoint, hempty2, sumAmounts]
  · simp [inflowPoint, hempty2, sumAmounts]
  · simp [inflowPoint, hn]
  · simp [inflowPoint, hempty2, sumAmounts]
  · simp [processRange, hn]
  · simp [processRange, hn]
  · simp [inflowRange, hn]

lemma mem_inflow_concrete :
    (⟨3600000, 100, 100, 0, 0⟩ : InflowDataItem) ∈
      inflowRange [] ⟨400, 0, 0⟩ 3600000 3600000 := by
  have hmem := mem_inflowRange_point [] ⟨400, 0, 0⟩ 3600000 3600000 0 (by decide)
  have hpt : inflowPoint (relevantTransfers [] 3600000 3600000) ⟨400, 0, 0⟩
      ((3600000 : ℤ) / bucketWidthMs).toNat 3600000 0 =
      (⟨3600000, 100, 100, 0, 0⟩ : InflowDataItem) := by
    rw [relevantTransfers_nil, inflowPoint_nil]
    have ht4 : (4 : ℤ).toNat = (4 : ℕ) := rfl
    norm_num [bucketEnd, bucketWidthMs, ht4]
  rw [hpt] at hmem
  exact hmem

lemma wlenBridge : 0 < (processRange [wT1] 1 3600000 3600000).length := by decide

lemma wlenInflow : 0 < (inflowRange [wT1] ⟨400, 0, 0⟩ 3600000 3600000).length := by
  decide

/-- Witness for C9 at a concrete nonempty event list whose bucket 0 is
empty (the single transfer wT1 falls in bucket 1). -/
theorem C9_witness :
    0 < 4 ∧ (3600000 : ℤ) = ((4 : ℕ) : ℤ) * bucketWidthMs ∧
    0 < (processRange [wT1] 1 3600000 3600000).length ∧
    intervalTransfers (relevantTransfers [wT1] 3600000 3600000) 3600000 0 = [] ∧
    0 < (inflowRange [wT1] ⟨400, 0, 0⟩ 3600000 3600000).length ∧
    (((processRange [wT1] 1 3600000 3600000).get ⟨0, wlenBridge⟩).amount = 0 ∧
      ((processRange [wT1] 1 3600000 3600000).get ⟨0, wlenBridge⟩).usdValue = 0 ∧
      ((inflowRange [wT1] ⟨400, 0, 0⟩ 3600000 3600000).get
          ⟨0, wlenInflow⟩).solBridgeAmount = 0 ∧
      ((inflowRange [wT1] ⟨400, 0, 0⟩ 3600000 3600000).get
          ⟨0, wlenInflow⟩).ethBridgeAmount = 0 ∧
      ((inflowRange [wT1] ⟨400, 0, 0⟩ 3600000 3600000).get
          ⟨0, wlenInflow⟩).exchangeAmount = ((400 : ℚ) + 0 + 0) / ((4 : ℕ) : ℚ) ∧
      ((inflowRange [wT1] ⟨400, 0, 0⟩ 3600000 3600000).get
          ⟨0, wlenInflow⟩).totalInflow =
        ((inflowRange [wT1] ⟨400, 0, 0⟩ 3600000 3600000).get
          ⟨0, wlenInflow⟩).exchangeAmount ∧
      intervalTransfers (relevantTransfers [] 3600000 3600000) 3600000 0 = [] ∧
      (processRange [] 1 3600000 3600000).length = 4 ∧
      (processRange [wT1] 1 3600000 3600000).length = 4 ∧
      (inflowRange [wT1] ⟨400, 0, 0⟩ 3600000 3600000).length = 4) :=
  ⟨by decide, by decide, wlenBridge, by decide, wlenInflow,
    C9_empty_events_amended 1 ⟨400, 0, 0⟩ [wT1] [wT1] 3600000 3600000 4
      (by decide) (by decide) 0 wlenBridge (by decide) 0 wlenInflow (by decide)⟩

/-- C10: in every window of the real inflow producer (window duration
k buckets), the exchangeAmount field of every record equals the sum of the
three fetched exchange figures divided by the bucket count k, independent
of the bridge events, and consequently the exchangeAmount fields of a
window sum back to the fetched exchange total. -/
theorem C10_exchange_uniform (ex : ExchangeData) (bd : List Transfer) (now : ℤ)
    (k : ℕ) (hk : 0 < k) (item : InflowDataItem)
    (hmem : item ∈ inflowRange bd ex now ((k : ℤ) * bucketWidthMs)) :
    item.exchangeAmount = (ex.binance + ex.coinbase + ex.kraken) / (k : ℚ) ∧
    ((inflowRange bd ex now ((k : ℤ) * bucketWidthMs)).map
        InflowDataItem.exchangeAmount).sum =
      ex.binance + ex.coinbase + ex.kraken := by
  have hn : ((((k : ℤ) * bucketWidthMs) / bucketWidthMs)).toNat = k := by
    rw [Int.mul_ediv_cancel _ (by norm_num [bucketWidthMs] : bucketWidthMs ≠ 0)]
    simp
  have hk0 : ((k : ℚ)) ≠ 0 := Nat.cast_ne_zero.mpr hk.ne'
  constructor
  · simp only [inflowRange, hn, List.mem_map] at hmem
    obtain ⟨i, -, rfl⟩ := hmem
    rfl
  · rw [inflowRange, hn, List.map_map]
    have hcomp : (InflowDataItem.exchangeAmount ∘
        inflowPoint (relevantTransfers bd now ((k : ℤ) * bucketWidthMs)) ex k now) =
        fun _ => (ex.binance + ex.coinbase + ex.kraken) / (k : ℚ) := rfl
    rw [hcomp, List.map_const', List.length_range, List.sum_replicate,
      nsmul_eq_mul]
    field_simp

/-- Witness for C10 at a concrete window. -/
theorem C10_witness :
    0 < 4 ∧
    (⟨3600000, 100, 100, 0, 0⟩ : InflowDataItem) ∈
      inflowRange [] ⟨400, 0, 0⟩ 3600000 (((4 : ℕ) : ℤ) * bucketWidthMs) ∧
    ((⟨3600000, 100, 100, 0, 0⟩ : InflowDataItem).exchangeAmount =
        ((400 : ℚ) + 0 + 0) / ((4 : ℕ) : ℚ) ∧
      ((inflowRange [] ⟨400, 0, 0⟩ 3600000 (((4 : ℕ) : ℤ) * bucketWidthMs)).map
          InflowDataItem.exchangeAmount).sum = (400 : ℚ) + 0 + 0) :=
  ⟨by decide, mem_inflow_concrete,
    C10_exchange_uniform ⟨400, 0, 0⟩ [] 3600000 4 (by decide)
      ⟨3600000, 100, 100, 0, 0⟩ mem_inflow_concrete⟩

end SolAvaxBridge
